import Mathlib

/-!
Shallow embedding of the graph-editing core of the Narwhal workflow editor
(src/src/components/WorkflowCanvas.tsx and src/src/types/workflow.ts).

Modelling conventions:
* Optional JS fields that every reader treats as defaulted (`x || []`) are
  modelled as plain lists defaulting to `[]` (subAgents, toolsets,
  knowledgeItems, args, ...); genuinely observable optionality is `Option`.
* Generated ids (`Date.now()`/`Math.random()` strings) are passed in as
  explicit parameters or derived deterministically from an index; only their
  freshness/distinctness ever matters to the properties below.
* React `setState` sequences inside one handler are composed into one pure
  state-to-state function, in the order the updater functions run.
-/

namespace Narwhal

/-- Reserved node id of the default input node (WorkflowCanvas.tsx line 15). -/
def INPUT_NODE_ID : String := "default-input"

/-- Reserved node id of the default output node (WorkflowCanvas.tsx line 16). -/
def OUTPUT_NODE_ID : String := "default-output"

/-- Reserved node id of the default knowledge node (WorkflowCanvas.tsx line 17). -/
def KNOWLEDGE_NODE_ID : String := "default-knowledge"

/-- The three reserved, permanent node ids. -/
def reservedIds : List String := [INPUT_NODE_ID, OUTPUT_NODE_ID, KNOWLEDGE_NODE_ID]

/-- NodeType from types/workflow.ts. -/
inductive NodeType
  | input
  | output
  | agent
  | tool
  | knowledge
  | step
  | condition
deriving DecidableEq, Repr

/-- connectionType values from types/workflow.ts (`flow` or `tool`). -/
inductive ConnType
  | flow
  | tool
deriving DecidableEq, Repr

/-- Planar position. The layout arithmetic is integral in every code path we model. -/
structure Pos where
  x : Int
  y : Int
deriving DecidableEq, Repr

/-- A toolset descriptor (the untyped `toolsets` entries and `MCPToolset` of
types/workflow.ts): type/ref/command/args/tools/env plus the `name` field the
tool-drop handler writes. -/
structure Toolset where
  type : String := ""
  ref : Option String := none
  command : Option String := none
  args : List String := []
  tools : List String := []
  env : List String := []
  name : Option String := none
deriving DecidableEq, Repr

/-- mcpConfig of a node: command and args (types/workflow.ts). -/
structure MCPConfig where
  command : Option String := none
  args : List String := []
deriving DecidableEq, Repr

/-- A knowledge item; only its identity matters to the modelled operations. -/
structure KnowledgeItem where
  id : String := ""
  name : String := ""
deriving DecidableEq, Repr

/-- WorkflowStep from types/workflow.ts. -/
structure WStep where
  id : String
  description : String
  toolIds : List String
  order : Nat
deriving DecidableEq, Repr

/-- AgentConfiguration from types/workflow.ts. -/
structure AgentConfig where
  model : String := ""
  description : String := ""
  instruction : String := ""
  toolsets : List Toolset := []
deriving DecidableEq, Repr

/-- WorkflowNode from types/workflow.ts, restricted to the fields the modelled
graph operations read or write. -/
structure WNode where
  id : String
  type : NodeType
  name : String := ""
  icon : String := ""
  position : Pos := ⟨0, 0⟩
  parentAgentId : Option String := none
  subAgents : List String := []
  toolsets : List Toolset := []
  knowledgeItems : List KnowledgeItem := []
  hasKnowledgeAccess : Option Bool := none
  showTools : Option Bool := none
  showConnectors : Option Bool := none
  showSubAgents : Option Bool := none
  showSteps : Option Bool := none
  toolsetType : Option String := none
  mcpConfig : Option MCPConfig := none
  stepDescription : Option String := none
  toolFunction : Option String := none
  steps : List WStep := []
  agentConfig : Option AgentConfig := none
  data : List String := []
deriving DecidableEq, Repr

/-- Connection from types/workflow.ts; connectionType is genuinely optional
(the click-to-connect path creates connections without one). -/
structure Connection where
  id : String
  sourceId : String
  targetId : String
  connectionType : Option ConnType := none
deriving DecidableEq, Repr

/-- The two authoritative collections held in React state. -/
structure GraphState where
  nodes : List WNode
  connections : List Connection
deriving DecidableEq, Repr

/-- The `nodesToDelete` list built by handleNodeDelete (WorkflowCanvas.tsx
lines 376-390): the node itself, then, if it is an agent, each directly listed
sub-agent followed by the tool nodes whose parentAgentId is that sub-agent. -/
def deleteClosure (s : GraphState) (id : String) : List String :=
  match s.nodes.find? (fun n => n.id = id) with
  | some n =>
    if n.type = NodeType.agent then
      id :: n.subAgents.flatMap (fun sa =>
        sa :: (s.nodes.filter (fun m => m.type = NodeType.tool ∧ m.parentAgentId = some sa)).map WNode.id)
    else [id]
  | none => [id]

/-- handleNodeDelete (WorkflowCanvas.tsx lines 369-409). Reserved ids are a
no-op; otherwise the deletion list is computed from the current nodes, the
parent's subAgents list is pruned when the deleted node is a sub-agent
(JS truthiness of `parentAgentId` modelled as `isSome`; node ids are nonempty
strings), and then nodes and connections touching the deletion list are
filtered out. -/
def handleNodeDelete (s : GraphState) (id : String) : GraphState :=
  if id = INPUT_NODE_ID ∨ id = OUTPUT_NODE_ID ∨ id = KNOWLEDGE_NODE_ID then s
  else
    let nodeToDelete := s.nodes.find? (fun n => n.id = id)
    let nodesToDelete := deleteClosure s id
    let nodes1 :=
      match nodeToDelete with
      | some n =>
        if n.parentAgentId.isSome ∧ n.type = NodeType.agent then
          s.nodes.map (fun (m : WNode) =>
            if some m.id = n.parentAgentId then
              { m with subAgents := m.subAgents.filter (fun x => ¬ x = id) }
            else m)
        else s.nodes
      | none => s.nodes
    { nodes := nodes1.filter (fun n => ¬ n.id ∈ nodesToDelete),
      connections := s.connections.filter (fun c =>
        ¬ c.sourceId ∈ nodesToDelete ∧ ¬ c.targetId ∈ nodesToDelete) }

/-- handleClearAll (WorkflowCanvas.tsx lines 774-782): keep only the three
reserved nodes, empty the knowledge node's item list, drop all connections. -/
def handleClearAll (s : GraphState) : GraphState :=
  { nodes := (s.nodes.filter (fun n => n.id ∈ reservedIds)).map (fun n =>
      if n.id = KNOWLEDGE_NODE_ID then { n with knowledgeItems := [] } else n),
    connections := [] }

/-- getAgentTools (WorkflowCanvas.tsx lines 1329-1334): source nodes of the
tool-typed connections into an agent (sub-agent links are tool-typed too, so
they are counted here as well). -/
def getAgentTools (s : GraphState) (agentId : String) : List WNode :=
  (s.connections.filter (fun c =>
    c.targetId = agentId ∧ c.connectionType = some ConnType.tool)).filterMap
    (fun c => s.nodes.find? (fun n => n.id = c.sourceId))

/-- handleConnectionEnd (WorkflowCanvas.tsx lines 713-723): the click-to-connect
path. Rejects only self-connections; no duplicate check, and the created
connection carries no connectionType. -/
def handleConnectionEnd (s : GraphState) (connectingFrom : Option String)
    (nodeId newConnId : String) : GraphState :=
  match connectingFrom with
  | some f =>
    if ¬ f = nodeId then
      { s with connections := s.connections ++ [⟨newConnId, f, nodeId, none⟩] }
    else s
  | none => s

/-- handleConnectionDrop (WorkflowCanvas.tsx lines 736-761): the drag-release
path. Rejects self-connections and identical (source, target) pairs; infers
connectionType as tool iff the source is a tool and the target an agent,
else flow. -/
def handleConnectionDrop (s : GraphState) (tempFrom nodeId newConnId : String) :
    GraphState :=
  if ¬ tempFrom = nodeId then
    match s.nodes.find? (fun n => n.id = tempFrom),
          s.nodes.find? (fun n => n.id = nodeId) with
    | some sourceNode, some targetNode =>
      if s.connections.any (fun c => c.sourceId = tempFrom ∧ c.targetId = nodeId) then s
      else
        { s with connections := s.connections ++
            [⟨newConnId, tempFrom, nodeId,
              some (if sourceNode.type = NodeType.tool ∧ targetNode.type = NodeType.agent
                    then ConnType.tool else ConnType.flow)⟩] }
    | _, _ => s
  else s

/-- handleDeleteConnection (WorkflowCanvas.tsx lines 770-772). -/
def handleDeleteConnection (s : GraphState) (connectionId : String) : GraphState :=
  { s with connections := s.connections.filter (fun c => ¬ c.id = connectionId) }

/-- The connection-split arm of the canvas drop handler (WorkflowCanvas.tsx
lines 325-348): when an agent is dropped over a hovered connection whose type
is not tool, that connection is removed and replaced by two flow connections
through the new agent. -/
def splitConnectionOnDrop (conns : List Connection)
    (hovered newAgentId id1 id2 : String) : List Connection :=
  match conns.find? (fun c => c.id = hovered) with
  | some c =>
    if ¬ c.connectionType = some ConnType.tool then
      conns.filter (fun x => ¬ x.id = hovered) ++
        [⟨id1, c.sourceId, newAgentId, some ConnType.flow⟩,
         ⟨id2, newAgentId, c.targetId, some ConnType.flow⟩]
    else conns
  | none => conns

/-- JS `a || b` on an optional string: empty strings are falsy. -/
def jsOrElse (o : Option String) (d : String) : String :=
  match o with
  | some v => if v = "" then d else v
  | none => d

/-- The builtInToolNames lookup of getToolDisplayName (WorkflowCanvas.tsx
lines 217-228), including the trailing `|| tool.type || 'Tool'` fallbacks. -/
def builtInToolName (t : String) : String :=
  if t = "think" then "Think"
  else if t = "todo" then "Todo List"
  else if t = "memory" then "Memory"
  else if t = "code" then "Code Execution"
  else if t = "browser" then "Browser"
  else if t = "filesystem" then "File System"
  else if t = "" then "Tool"
  else t

/-- getToolDisplayName (WorkflowCanvas.tsx lines 217-228). -/
def getToolDisplayName (ts : Toolset) : String :=
  match ts.ref with
  | some r => if r = "" then builtInToolName ts.type else r
  | none => builtInToolName ts.type

/-- The builtInIcons lookup of getToolIcon (WorkflowCanvas.tsx lines 231-244). -/
def builtInToolIcon (t : String) : String :=
  if t = "think" then "Lightbulb"
  else if t = "todo" then "CheckSquare"
  else if t = "memory" then "Brain"
  else if t = "code" then "Code"
  else if t = "browser" then "Globe"
  else if t = "filesystem" then "FolderOpen"
  else "Wrench"

/-- getToolIcon (WorkflowCanvas.tsx lines 231-244). -/
def getToolIcon (ts : Toolset) : String :=
  if ts.type = "mcp" then "Cloud"
  else
    match ts.ref with
    | some r => if r = "" then builtInToolIcon ts.type else "Wrench"
    | none => builtInToolIcon ts.type

/-- The toolsetType classification of the drop handler (WorkflowCanvas.tsx
lines 257-259): mcp if type is mcp, ref if a (truthy) ref is present,
builtin otherwise. -/
def toolsetKind (ts : Toolset) : String :=
  if ts.type = "mcp" then "mcp"
  else
    match ts.ref with
    | some r => if r = "" then "builtin" else "ref"
    | none => "builtin"

/-- The display name used for a toolset node (WorkflowCanvas.tsx lines
262-264): for mcp toolsets the command (or a placeholder), else
getToolDisplayName. -/
def toolsetDisplayName (ts : Toolset) : String :=
  if ts.type = "mcp" then jsOrElse ts.command "MCP Connector"
  else getToolDisplayName ts

/-- The toolset-expansion loop shared by the canvas drop handler
(WorkflowCanvas.tsx lines 246-301) and the sub-agent drop handler (lines
540-590): one tool node plus one tool-typed connection per toolset entry,
laid out on a 2-column grid (spacing 250 x 140, start offset 180) below the
parent. getFns abstracts the getToolFunctions table of
src/src/data/toolDefinitions.ts; generated ids are indexed off the bases. -/
def expandToolsets (getFns : String → List String) (parentId : String)
    (parentPos : Pos) (nodeIdBase connIdBase : String) (toolsets : List Toolset) :
    List WNode × List Connection :=
  let mk := fun (i : Nat) (ts : Toolset) =>
    let row : Int := Int.ofNat (i / 2)
    let col : Int := Int.ofNat (i % 2)
    let displayName := toolsetDisplayName ts
    let node : WNode :=
      { id := nodeIdBase ++ "-" ++ toString i
        type := NodeType.tool
        name := displayName
        icon := getToolIcon ts
        position := ⟨parentPos.x + col * 250 - 110, parentPos.y + 180 + row * 140⟩
        parentAgentId := some parentId
        toolsetType := some (toolsetKind ts)
        mcpConfig := if ts.type = "mcp" then some ⟨ts.command, ts.args⟩ else none
        data := getFns displayName }
    let conn : Connection := ⟨connIdBase ++ "-" ++ toString i, node.id, parentId, some ConnType.tool⟩
    (node, conn)
  ((toolsets.enum.map (fun p => (mk p.1 p.2).1)),
   (toolsets.enum.map (fun p => (mk p.1 p.2).2)))

/-- Outcome of the asynchronous GET /api/agents/name configuration fetch as the
drop handlers observe it: a network error or non-200 response; a 200 response
whose agents.root carries no toolsets array; or a 200 response with a toolsets
array. -/
inductive FetchResult
  | failure
  | okNoToolsets
  | ok (toolsets : List Toolset)
deriving DecidableEq, Repr

/-- The agent shell node built at the top of the canvas drop handler
(WorkflowCanvas.tsx lines 187-196) for an agent template. -/
def mkDroppedAgentShell (itemName itemIcon : String) (itemMcp : Option MCPConfig)
    (pos : Pos) (newId : String) : WNode :=
  { id := newId
    type := NodeType.agent
    name := itemName
    icon := itemIcon
    position := pos
    hasKnowledgeAccess := some true
    mcpConfig := itemMcp
    toolsetType := if itemMcp.isSome then some "mcp" else none }

/-- The agent arm of the canvas useDrop handler (WorkflowCanvas.tsx lines
199-351): create the agent shell; on a successful fetch with a toolsets array
also record the toolsets on the node and commit the expanded tool nodes and
connections in the same update, otherwise commit the shell alone; finally, if
the drop happened over a hovered connection, apply the connection split. -/
def dropAgentTemplate (getFns : String → List String) (s : GraphState)
    (itemName itemIcon : String) (itemMcp : Option MCPConfig) (pos : Pos)
    (newId nodeIdBase connIdBase splitId1 splitId2 : String)
    (fetch : FetchResult) (hoveredConnection : Option String) : GraphState :=
  let newNode := mkDroppedAgentShell itemName itemIcon itemMcp pos newId
  let s1 : GraphState :=
    match fetch with
    | FetchResult.failure => { s with nodes := s.nodes ++ [newNode] }
    | FetchResult.okNoToolsets => { s with nodes := s.nodes ++ [newNode] }
    | FetchResult.ok ts =>
      let node2 := { newNode with toolsets := ts, showTools := some true, showConnectors := some true }
      let exp := expandToolsets getFns newId pos nodeIdBase connIdBase ts
      { nodes := s.nodes ++ node2 :: exp.1, connections := s.connections ++ exp.2 }
  match hoveredConnection with
  | some hc => { s1 with connections := splitConnectionOnDrop s1.connections hc newId splitId1 splitId2 }
  | none => s1

/-- JS `name.toLowerCase().replace(/\s+/g, '_')`: squash whitespace runs to a
single underscore in the lowercased name (WorkflowCanvas.tsx line 667). The
flag records whether the previous character was whitespace. -/
def squashWhitespace : Bool → List Char → List Char
  | _, [] => []
  | prevWs, c :: rest =>
    if c.isWhitespace then
      (if prevWs then [] else ['_']) ++ squashWhitespace true rest
    else c :: squashWhitespace false rest

/-- Lowercase-and-underscore a tool name (WorkflowCanvas.tsx line 667). -/
def underscoreName (s : String) : String :=
  String.mk (squashWhitespace false s.toLower.toList)

/-- handleToolDropOnAgent (WorkflowCanvas.tsx lines 459-688). The agent arm
creates a sub-agent laid out below the current tool rows, registers it in the
parent's subAgents list and links it with a tool-typed connection (fetching its
configuration first unless the template is the blank New Agent). The tool arm
creates a tool node on the 2-column grid at fixed start offset 180 with grid
index equal to the current getAgentTools count, appends a toolset descriptor to
the parent and links the tool with a tool-typed connection. -/
def handleToolDropOnAgent (getFns : String → List String) (s : GraphState)
    (agentId : String) (itemType : NodeType) (itemName itemIcon : String)
    (itemMcp : Option MCPConfig) (newId connId subNodeIdBase subConnIdBase : String)
    (fetch : FetchResult) : GraphState :=
  match s.nodes.find? (fun n => n.id = agentId) with
  | none => s
  | some agentNode =>
    if itemType = NodeType.agent then
      let subAgentCount := (s.nodes.filter (fun n =>
        n.type = NodeType.agent ∧ n.parentAgentId = some agentId)).length
      let toolRows : Int := Int.ofNat (((getAgentTools s agentId).length + 1) / 2)
      let startOffsetY : Int := 180 + toolRows * 140
      let row : Int := Int.ofNat (subAgentCount / 2)
      let col : Int := Int.ofNat (subAgentCount % 2)
      let subAgentNode : WNode :=
        { id := newId
          type := NodeType.agent
          name := itemName
          icon := itemIcon
          position := ⟨agentNode.position.x + col * 250 - 110,
                       agentNode.position.y + startOffsetY + row * 140⟩
          parentAgentId := some agentId
          hasKnowledgeAccess := some true
          showSubAgents := some true }
      let s1 : GraphState :=
        if ¬ itemName = "New Agent" then
          match fetch with
          | FetchResult.ok ts =>
            let sub2 := { subAgentNode with toolsets := ts, showTools := some true, showConnectors := some true }
            let exp := expandToolsets getFns newId subAgentNode.position subNodeIdBase subConnIdBase ts
            { nodes := s.nodes ++ sub2 :: exp.1, connections := s.connections ++ exp.2 }
          | _ => { s with nodes := s.nodes ++ [subAgentNode] }
        else { s with nodes := s.nodes ++ [subAgentNode] }
      let s2 : GraphState :=
        { s1 with nodes := s1.nodes.map (fun (n : WNode) =>
            if n.id = agentId then
              { n with subAgents := n.subAgents ++ [newId], showSubAgents := some true }
            else n) }
      { s2 with connections := s2.connections ++ [⟨connId, newId, agentId, some ConnType.tool⟩] }
    else
      let toolCount := (getAgentTools s agentId).length
      let row : Int := Int.ofNat (toolCount / 2)
      let col : Int := Int.ofNat (toolCount % 2)
      let toolNode : WNode :=
        { id := newId
          type := NodeType.tool
          name := itemName
          icon := itemIcon
          position := ⟨agentNode.position.x + col * 250 - 110,
                       agentNode.position.y + 180 + row * 140⟩
          parentAgentId := some agentId
          toolsetType := some (if itemMcp.isSome then "mcp" else "builtin")
          mcpConfig := itemMcp
          data := getFns itemName }
      let toolsetEntry : Toolset :=
        match itemMcp with
        | some m => { type := "mcp", name := some itemName, command := m.command, args := m.args }
        | none => { type := underscoreName itemName }
      let nodes1 := s.nodes.map (fun (n : WNode) =>
        if n.id = agentId then { n with toolsets := n.toolsets ++ [toolsetEntry] } else n)
      { nodes := nodes1 ++ [toolNode],
        connections := s.connections ++ [⟨connId, toolNode.id, agentId, some ConnType.tool⟩] }

/-- JS \s whitespace class (ECMA-262 WhiteSpace plus LineTerminator):
space, tab, newline, carriage return, vertical tab, form feed, and the
Unicode space characters. -/
def isJsWhite (c : Char) : Bool :=
  c = ' ' ∨ c = '	' ∨ c = '
' ∨ c = '
' ∨ c = '' ∨ c = '' ∨
  c = ' ' ∨ c = ' ' ∨ (' ' ≤ c ∧ c ≤ ' ') ∨
  c = ' ' ∨ c = ' ' ∨ c = ' ' ∨ c = ' ' ∨ c = '　' ∨ c = '﻿'

/-- JS LineTerminator: the characters the multiline anchors ^ and $ fire
around. -/
def isLineTerm (c : Char) : Bool :=
  c = '
' ∨ c = '
' ∨ c = ' ' ∨ c = ' '

/-- JS word character, as used by the \b boundary: [A-Za-z0-9_]. -/
def isWordChar (c : Char) : Bool :=
  ('a' ≤ c ∧ c ≤ 'z') ∨ ('A' ≤ c ∧ c ≤ 'Z') ∨ c.isDigit ∨ c = '_'

/-- Character class [a-z_] of the tool-call pattern. -/
def isToolNameChar (c : Char) : Bool :=
  ('a' ≤ c ∧ c ≤ 'z') ∨ c = '_'

/-- Decimal value of a digit run (JS parseInt on the captured digits). -/
def digitsToNat (ds : List Char) : Nat :=
  ds.foldl (fun a c => a * 10 + (c.toNat - 48)) 0

/-- JS String.prototype.trim over the character list. -/
def jsTrim (s : String) : String :=
  String.mk (((s.toList.dropWhile isJsWhite).reverse.dropWhile isJsWhite).reverse)

/-- One attempt of the step pattern ^\s*(\d+)\.\s+(.+?)(?=\n\s*\d+\.|$)
with flags gms (WorkflowCanvas.tsx line 857) at an anchor position. Since the
character classes are closed under the greedy runs, backtracking collapses:
the leading \s* is the maximal whitespace run (it may cross line breaks),
the digits are the maximal digit run and must be followed by the literal dot,
and \s+ after the dot is again the maximal whitespace run (it too may cross
line breaks, which is how a marker with no same-line text captures a later
line). With the m flag the $ alternative of the lookahead fires before every
line terminator, so the lazy dotAll .+? stops at the first line terminator
after its start: the captured text runs from the first non-whitespace
character after the dot to the end of that character's line. When only
whitespace remains after the dot, \s+ backtracks one character and .+?
captures that single whitespace character before the end-of-input $.
Returns the captured (number, text) and the remaining input after the match. -/
def attemptStepMatch (cs : List Char) : Option (Nat × String × List Char) :=
  let afterWs := cs.dropWhile isJsWhite
  let ds := afterWs.takeWhile Char.isDigit
  if ds.isEmpty then none
  else
    match afterWs.drop ds.length with
    | '.' :: rest =>
      let v := rest.takeWhile isJsWhite
      if v.length = 0 then none
      else
        match rest.drop v.length with
        | [] =>
          if 2 ≤ v.length then
            some (digitsToNat ds, String.mk (v.drop (v.length - 1)), [])
          else none
        | c :: t =>
          let text := (c :: t).takeWhile (fun ch => ¬ isLineTerm ch)
          some (digitsToNat ds, String.mk text, (c :: t).drop text.length)
    | _ => none

/-- The global matchAll scan of the step pattern, fuelled by the input length:
at every position where the multiline ^ anchor holds (start of input, or just
after a line terminator), attempt a match and resume after it; otherwise
advance one character. After a successful match the scan stands at the
lookahead position, whose preceding character is a text character, so the
anchor flag resumes false. -/
def scanSteps : Nat → Bool → List Char → List (Nat × String)
  | 0, _, _ => []
  | _ + 1, _, [] => []
  | fuel + 1, atStart, c :: rest =>
    if atStart then
      match attemptStepMatch (c :: rest) with
      | some (n, text, remainder) => (n, text) :: scanSteps fuel false remainder
      | none => scanSteps fuel (isLineTerm c) rest
    else scanSteps fuel (isLineTerm c) rest

/-- All numbered steps of an instruction text, in document order: the matchAll
of the step pattern over the whole instruction. -/
def extractSteps (instruction : String) : List (Nat × String) :=
  scanSteps (instruction.toList.length + 1) true instruction.toList

/-- Attempt to complete the tool-call pattern [a-z_]+\([^)]*\) whose first
character starts the given list: the greedy name run, an opening parenthesis,
a run without closing parentheses, then the closing parenthesis. Returns the
captured function name (the text before the parenthesis, as split by
funcName = call.split of the code) and the remaining characters. -/
def completeToolCall (cs : List Char) : Option (String × List Char) :=
  let run := cs.takeWhile isToolNameChar
  match cs.drop run.length with
  | '(' :: rest =>
    let args := rest.takeWhile (fun c => ¬ c = ')')
    match rest.drop args.length with
    | ')' :: rest2 => some (String.mk run, rest2)
    | _ => none
  | _ => none

/-- Global scan of stepText.match with pattern \b([a-z_]+\([^)]*\)) /g
(WorkflowCanvas.tsx line 864), fuelled by the input length: at each position
with a word boundary and a [a-z_] character, try to complete a call and resume
after it; otherwise advance one character tracking word-character status. -/
def scanToolCalls : Nat → Bool → List Char → List String
  | 0, _, _ => []
  | _ + 1, _, [] => []
  | fuel + 1, prevIsWord, c :: rest =>
    if isToolNameChar c ∧ ¬ prevIsWord then
      match completeToolCall (c :: rest) with
      | some (name, rest2) => name :: scanToolCalls fuel false rest2
      | none => scanToolCalls fuel (isWordChar c) rest
    else scanToolCalls fuel (isWordChar c) rest

/-- The tool-function names referenced by one step text, in match order,
with duplicates. -/
def extractToolCalls (text : String) : List String :=
  scanToolCalls text.toList.length false text.toList

/-- Insertion-ordered deduplication, the semantics of feeding a list into a JS
Set and iterating it. -/
def dedupKeepFirst (l : List String) : List String :=
  l.foldl (fun acc x => if x ∈ acc then acc else acc ++ [x]) []

/-- The per-step tool-function set (toolFunctionMap entry) of one step text. -/
def stepFuncsOf (text : String) : List String :=
  dedupKeepFirst (extractToolCalls text)

/-- allToolFunctions: the union of the per-step sets in insertion order
(WorkflowCanvas.tsx lines 887-888). -/
def allFuncsOf (steps : List (Nat × String)) : List String :=
  dedupKeepFirst (steps.flatMap (fun st => stepFuncsOf st.2))

/-- Id of the index-th step node. The code uses step-timestamp-index; the
timestamp component is elided. -/
def stepIdOf (stepIdBase : String) (i : Nat) : String :=
  stepIdBase ++ "-" ++ toString i

/-- Id of the tool node for a unique tool-function name. The code draws a fresh
random id per unique name (via toolNodeMap); keying the fresh id by the name
preserves exactly the distinctness and linkage the code establishes. -/
def toolIdOf (toolIdBase : String) (f : String) : String :=
  toolIdBase ++ "-" ++ f

/-- The previousStepId accumulator of the step-connection loop: the agent for
the first step, else the previous step node. -/
def prevStepId (agentId stepIdBase : String) : Nat → String
  | 0 => agentId
  | i + 1 => stepIdOf stepIdBase i

/-- Imported tool nodes, one per unique tool-function name, stacked vertically
at x + 300 from the agent column (WorkflowCanvas.tsx lines 894-908). -/
def mkImportToolNodes (agentId toolIdBase : String) (xOffset : Int)
    (funcs : List String) : List WNode :=
  funcs.enum.map (fun p =>
    { id := toolIdOf toolIdBase p.2
      type := NodeType.tool
      name := p.2
      icon := "Wrench"
      position := ⟨xOffset + 300, 150 + 100 * Int.ofNat p.1⟩
      toolFunction := some p.2
      parentAgentId := some agentId })

/-- The index-th imported step node (WorkflowCanvas.tsx lines 914-925). The
step text is a single line, so the stored description is its trimmed text. -/
def mkImportStepNode (agentId stepIdBase : String) (xOffset : Int) (i : Nat)
    (st : Nat × String) : WNode :=
  { id := stepIdOf stepIdBase i
    type := NodeType.step
    name := "Step " ++ toString st.1
    icon := "Circle"
    position := ⟨xOffset, 300 + 120 * Int.ofNat i⟩
    stepDescription := some (jsTrim st.2)
    parentAgentId := some agentId }

/-- The step nodes of one imported agent, indexed from i. -/
def mkStepNodes (agentId stepIdBase : String) (xOffset : Int) :
    Nat → List (Nat × String) → List WNode
  | _, [] => []
  | i, st :: rest =>
    mkImportStepNode agentId stepIdBase xOffset i st ::
      mkStepNodes agentId stepIdBase xOffset (i + 1) rest

/-- The WorkflowStep records stored on the imported agent node, with toolIds
populated by the connection loop (WorkflowCanvas.tsx lines 874-880, 936-948). -/
def mkWorkflowSteps (stepIdBase toolIdBase : String) :
    Nat → List (Nat × String) → List WStep
  | _, [] => []
  | i, st :: rest =>
    { id := stepIdOf stepIdBase i
      description := jsTrim st.2
      toolIds := (stepFuncsOf st.2).map (toolIdOf toolIdBase)
      order := st.1 } :: mkWorkflowSteps stepIdBase toolIdBase (i + 1) rest

/-- The flow connection into the index-th step node of the imported chain. -/
def importFlowConn (agentId stepIdBase connIdBase : String) (i : Nat) : Connection :=
  ⟨connIdBase ++ "-f" ++ toString i, prevStepId agentId stepIdBase i,
   stepIdOf stepIdBase i, some ConnType.flow⟩

/-- The tool connection from the index-th step node to the tool node of
function name f. -/
def importToolConn (stepIdBase toolIdBase connIdBase : String) (i : Nat)
    (f : String) : Connection :=
  ⟨connIdBase ++ "-t" ++ toString i ++ "-" ++ f, stepIdOf stepIdBase i,
   toolIdOf toolIdBase f, some ConnType.tool⟩

/-- The connections created by the step loop (WorkflowCanvas.tsx lines
910-952): per step, in order, the flow connection from the previous element of
the chain, then one tool connection per tool function the step references. -/
def mkStepConns (agentId stepIdBase toolIdBase connIdBase : String) :
    Nat → List (Nat × String) → List Connection
  | _, [] => []
  | i, st :: rest =>
    importFlowConn agentId stepIdBase connIdBase i ::
      ((stepFuncsOf st.2).map (importToolConn stepIdBase toolIdBase connIdBase i) ++
        mkStepConns agentId stepIdBase toolIdBase connIdBase (i + 1) rest)

/-- One declared agent entry of an imported document (the agents mapping values
of the cagent YAML: model, description, instruction, optional toolsets). -/
structure AgentEntry where
  name : String
  model : Option String := none
  description : Option String := none
  instruction : Option String := none
  toolsets : Option (List Toolset) := none
deriving DecidableEq, Repr

/-- A parsed imported document. The importer only looks for a top-level agents
mapping; the export writes nodes, connections and version (the timestamp field
is elided as it is never read back). -/
structure ImportDoc where
  agents : Option (List AgentEntry) := none
  nodes : Option (List WNode) := none
  connections : Option (List Connection) := none
  version : Option String := none
deriving DecidableEq, Repr

/-- Outcome reported to the user by handleImportAgent: the invalid-document
alert, or the success alert carrying the imported agent count. -/
inductive ImportResult
  | invalidYaml
  | success (agentCount : Nat)
deriving DecidableEq, Repr

/-- The agent node created for one declared agent entry (WorkflowCanvas.tsx
lines 813-884): name (root is renamed), parsed configuration with the
mcp-typed toolsets copied verbatim, steps shown, and the parsed step list. -/
def importAgentNode (entry : AgentEntry) (xOffset : Int)
    (agentId toolIdBase stepIdBase : String) : WNode :=
  { id := agentId
    type := NodeType.agent
    name := if entry.name = "root" then "Salesforce Agent" else entry.name
    icon := "Bot"
    position := ⟨xOffset, 150⟩
    agentConfig := some
      { model := jsOrElse entry.model "gpt-4"
        description := jsOrElse entry.description ""
        instruction := jsOrElse entry.instruction ""
        toolsets := ((entry.toolsets.getD []).filter (fun ts => ts.type = "mcp")).map
          (fun ts => { type := "mcp", ref := ts.ref, command := ts.command,
                       args := ts.args, tools := ts.tools, env := ts.env : Toolset }) }
    showSteps := some true
    steps := mkWorkflowSteps stepIdBase toolIdBase 0
      (extractSteps (jsOrElse entry.instruction "")) }

/-- The node/connection group produced for one declared agent entry
(WorkflowCanvas.tsx lines 813-955): the agent node, tool nodes for the unique
tool-function names, step nodes, and the chain plus tool connections. -/
def importOneAgent (entry : AgentEntry) (xOffset : Int)
    (agentId toolIdBase stepIdBase connIdBase : String) :
    List WNode × List Connection :=
  let steps := extractSteps (jsOrElse entry.instruction "")
  (importAgentNode entry xOffset agentId toolIdBase stepIdBase ::
    (mkImportToolNodes agentId toolIdBase xOffset (allFuncsOf steps) ++
     mkStepNodes agentId stepIdBase xOffset 0 steps),
   mkStepConns agentId stepIdBase toolIdBase connIdBase 0 steps)

/-- handleImportAgent (WorkflowCanvas.tsx lines 784-968): a document without a
top-level agents mapping is reported as invalid and commits nothing; otherwise
every declared agent entry is translated by importOneAgent, with successive
entries offset 600 to the right starting at 250, and all produced nodes and
connections are appended in one update. -/
def handleImportAgent (s : GraphState) (doc : ImportDoc) : GraphState × ImportResult :=
  match doc.agents with
  | none => (s, ImportResult.invalidYaml)
  | some entries =>
    let groups := entries.enum.map (fun p =>
      importOneAgent p.2 (250 + 600 * Int.ofNat p.1)
        ("agent-" ++ toString p.1) ("tool-" ++ toString p.1)
        ("step-" ++ toString p.1) ("conn-" ++ toString p.1))
    ({ nodes := s.nodes ++ groups.flatMap Prod.fst,
       connections := s.connections ++ groups.flatMap Prod.snd },
     ImportResult.success entries.length)

/-- handleExportWorkflow (WorkflowCanvas.tsx lines 1004-1020): the exported
document holds the node and connection collections verbatim plus a version
marker; it carries no agents mapping. -/
def exportWorkflow (s : GraphState) : ImportDoc :=
  { agents := none
    nodes := some s.nodes
    connections := some s.connections
    version := some "1.0" }

/-- The default input node created on initialization (WorkflowCanvas.tsx
lines 106-112). -/
def defaultInputNode : WNode :=
  { id := INPUT_NODE_ID, type := NodeType.input, name := "Input",
    icon := "PlayCircle", position := ⟨50, 150⟩ }

/-- The default output node created on initialization (WorkflowCanvas.tsx
lines 114-139; the sample output payload is presentation data and elided). -/
def defaultOutputNode : WNode :=
  { id := OUTPUT_NODE_ID, type := NodeType.output, name := "Output",
    icon := "CheckCircle", position := ⟨700, 150⟩ }

/-- The default knowledge node created on initialization (WorkflowCanvas.tsx
lines 141-148). -/
def defaultKnowledgeNode : WNode :=
  { id := KNOWLEDGE_NODE_ID, type := NodeType.knowledge, name := "Knowledge Base",
    icon := "Database", position := ⟨50, 400⟩, knowledgeItems := [] }

/-- The initial graph state (WorkflowCanvas.tsx lines 104-151). -/
def initialState : GraphState :=
  { nodes := [defaultInputNode, defaultOutputNode, defaultKnowledgeNode],
    connections := [] }

/-- Example agent A owning sub-agent S, which owns sub-sub-agent S2; A also
owns a tool TA and a step STA, S owns a tool TS. -/
def c1A : WNode := { id := "A", type := NodeType.agent, subAgents := ["S"] }

/-- Sub-agent S of A, itself owning S2. -/
def c1S : WNode :=
  { id := "S", type := NodeType.agent, parentAgentId := some "A", subAgents := ["S2"] }

/-- Sub-sub-agent S2 of S. -/
def c1S2 : WNode := { id := "S2", type := NodeType.agent, parentAgentId := some "S" }

/-- Tool TA owned directly by A. -/
def c1TA : WNode := { id := "TA", type := NodeType.tool, parentAgentId := some "A" }

/-- Tool TS owned by sub-agent S. -/
def c1TS : WNode := { id := "TS", type := NodeType.tool, parentAgentId := some "S" }

/-- Step STA owned directly by A. -/
def c1STA : WNode := { id := "STA", type := NodeType.step, parentAgentId := some "A" }

/-- Concrete graph exercising the deletion cascade: agent A with a sub-agent
chain A - S - S2, a direct tool and step under A, and a tool under S. -/
def c1state : GraphState :=
  { nodes := [defaultInputNode, defaultOutputNode, defaultKnowledgeNode,
              c1A, c1S, c1S2, c1TA, c1TS, c1STA],
    connections := [⟨"k1", "TA", "A", some ConnType.tool⟩,
                    ⟨"k2", "S", "A", some ConnType.tool⟩,
                    ⟨"k3", "TS", "S", some ConnType.tool⟩,
                    ⟨"k4", "S2", "S", some ConnType.tool⟩] }

/-- Concrete imported document carrying data but no agents mapping. -/
def c7doc : ImportDoc := { nodes := some [defaultInputNode] }

/-- Trivial tool-function table (a name with no entry in toolDefinitions.ts). -/
def noFns : String → List String := fun _ => []

/-- Concrete parent agent for the layout examples. -/
def c8agentA : WNode :=
  { id := "A", type := NodeType.agent, name := "Agent A", position := ⟨400, 250⟩ }

/-- Layout example, initial state: just the parent agent. -/
def c8s0 : GraphState := { nodes := [c8agentA], connections := [] }

/-- Layout example after dropping tool Alpha on A. -/
def c8s1 : GraphState :=
  handleToolDropOnAgent noFns c8s0 "A" NodeType.tool "Alpha" "Wrench" none
    "t1" "c1" "xb1" "yb1" FetchResult.failure

/-- Layout example after then dropping a blank sub-agent on A. -/
def c8s2 : GraphState :=
  handleToolDropOnAgent noFns c8s1 "A" NodeType.agent "New Agent" "Bot" none
    "S" "c2" "xb2" "yb2" FetchResult.failure

/-- Layout example after then dropping tool Beta on A. -/
def c8s3 : GraphState :=
  handleToolDropOnAgent noFns c8s2 "A" NodeType.tool "Beta" "Wrench" none
    "t2" "c3" "xb3" "yb3" FetchResult.failure

/-- Concrete agent node for the connection-inference examples. -/
def c3agent : WNode := { id := "a1", type := NodeType.agent, name := "Agent" }

/-- Concrete graph where a flow connection input - a1 already exists. -/
def c3state : GraphState :=
  { nodes := [defaultInputNode, c3agent],
    connections := [⟨"c0", INPUT_NODE_ID, "a1", some ConnType.flow⟩] }

/-- Concrete connection list with one flow and one tool edge. -/
def c4conns : List Connection :=
  [⟨"f1", "a", "b", some ConnType.flow⟩, ⟨"t1", "x", "y", some ConnType.tool⟩]

/-- Concrete tool node attached to agent a1, as the tool arm of
handleToolDropOnAgent creates it. -/
def c10tool : WNode :=
  { id := "t1", type := NodeType.tool, name := "Think", icon := "Lightbulb",
    position := ⟨290, 430⟩, parentAgentId := some "a1",
    toolsetType := some "builtin" }

/-- Concrete graph with agent a1 carrying the toolset descriptor appended when
c10tool was attached, the tool node itself, and its tool connection. -/
def c10state : GraphState :=
  { nodes := [defaultInputNode, defaultOutputNode, defaultKnowledgeNode,
              { id := "a1", type := NodeType.agent, name := "Agent",
                position := ⟨400, 250⟩, toolsets := [{ type := "think" }] },
              c10tool],
    connections := [⟨"c1", "t1", "a1", some ConnType.tool⟩] }

/-- Concrete graph with one agent and one knowledge item, for exercising
reserved-node deletion and clear-workflow. -/
def c2state : GraphState :=
  { nodes := [defaultInputNode, defaultOutputNode,
              { defaultKnowledgeNode with knowledgeItems := [⟨"ki1", "doc.pdf"⟩] },
              { id := "a1", type := NodeType.agent, name := "Agent" }],
    connections := [⟨"c0", INPUT_NODE_ID, "a1", some ConnType.flow⟩] }

theorem clear_ids (s : GraphState) :
    (handleClearAll s).nodes.map WNode.id
      = (s.nodes.filter (fun n => n.id ∈ reservedIds)).map WNode.id := by
  simp only [handleClearAll, List.map_map]
  apply List.map_congr_left
  intro n _
  by_cases h : n.id = KNOWLEDGE_NODE_ID <;> simp [h, Function.comp]

theorem count_id_filter_reserved (l : List WNode) (a : String) :
    ((l.filter (fun n => n.id ∈ reservedIds)).map WNode.id).count a
      = if a ∈ reservedIds then (l.map WNode.id).count a else 0 := by
  induction l with
  | nil => simp
  | cons n t ih =>
    by_cases hn : n.id ∈ reservedIds
    · by_cases ha : n.id = a
      · subst ha
        simp [List.filter_cons, hn, List.count_cons, ih]
      · simp [List.filter_cons, hn, ha, List.count_cons, ih]
    · by_cases ha : n.id = a
      · subst ha
        simp [List.filter_cons, hn, List.count_cons, ih]
      · simp [List.filter_cons, hn, ha, List.count_cons, ih]

theorem count_reservedIds (a : String) :
    reservedIds.count a = if a ∈ reservedIds then 1 else 0 := by
  by_cases h : a ∈ reservedIds
  · have h2 := h
    simp only [reservedIds, List.mem_cons, List.mem_singleton, List.not_mem_nil, or_false] at h2
    rcases h2 with h2 | h2 | h2 <;> subst h2 <;> simp [h] <;> decide
  · simp [List.count_eq_zero_of_not_mem h, h]

/-- C2: DeleteNode on each of the three reserved ids is a no-op for every
graph state; and after ClearWorkflow the connection set is empty, the
knowledge node's item list is empty, and (whenever the prior state holds each
reserved id exactly once, as every reachable state does) the surviving node
ids are exactly the three reserved ids. -/
theorem C2_reserved_and_clear (s : GraphState) :
    handleNodeDelete s INPUT_NODE_ID = s ∧
    handleNodeDelete s OUTPUT_NODE_ID = s ∧
    handleNodeDelete s KNOWLEDGE_NODE_ID = s ∧
    (handleClearAll s).connections = [] ∧
    (∀ n ∈ (handleClearAll s).nodes, n.id = KNOWLEDGE_NODE_ID → n.knowledgeItems = []) ∧
    ((∀ i ∈ reservedIds, (s.nodes.map WNode.id).count i = 1) →
      ((handleClearAll s).nodes.map WNode.id).Perm reservedIds) := by
  refine ⟨by simp [handleNodeDelete], by simp [handleNodeDelete], by simp [handleNodeDelete],
          rfl, ?_, ?_⟩
  · intro n hn hk
    simp only [handleClearAll, List.mem_map] at hn
    rcases hn with ⟨m, _, rfl⟩
    by_cases h : m.id = KNOWLEDGE_NODE_ID
    · simp [h]
    · simp [h] at hk ⊢
  · intro h
    rw [clear_ids]
    refine List.perm_iff_count.mpr (fun a => ?_)
    rw [count_id_filter_reserved, count_reservedIds]
    by_cases ha : a ∈ reservedIds
    · simp [ha, h a ha]
    · simp [ha]

/-- Witness for C2 at a concrete state holding the three reserved nodes, an
agent and one connection. -/
theorem C2_witness :
    (∀ i ∈ reservedIds, (c2state.nodes.map WNode.id).count i = 1) ∧
    ((handleClearAll c2state).nodes.map WNode.id).Perm reservedIds ∧
    handleNodeDelete c2state INPUT_NODE_ID = c2state :=
  ⟨by decide, (C2_reserved_and_clear c2state).2.2.2.2.2 (by decide),
   (C2_reserved_and_clear c2state).1⟩


/-- C10: deleting a (non-reserved) tool node removes exactly that node and
every connection touching it; every surviving node is an unchanged record of
the prior state; and, for DeleteNode on any id whatsoever, every surviving
node keeps the toolsets field of its prior-state record — in particular the
toolset descriptor appended to the parent agent when the tool was attached
survives the tool's deletion. -/
theorem C10_tool_delete_frame (s : GraphState) (tid : String) (t : WNode)
    (hfind : s.nodes.find? (fun n => n.id = tid) = some t)
    (htool : t.type = NodeType.tool)
    (hres : ¬ tid ∈ reservedIds) :
    (handleNodeDelete s tid).nodes = s.nodes.filter (fun n => ¬ n.id = tid) ∧
    (handleNodeDelete s tid).connections =
      s.connections.filter (fun c => ¬ c.sourceId = tid ∧ ¬ c.targetId = tid) ∧
    (∀ m ∈ (handleNodeDelete s tid).nodes, m ∈ s.nodes) ∧
    (∀ (s2 : GraphState) (id2 : String), ∀ m ∈ (handleNodeDelete s2 id2).nodes,
        ∃ m0, m0 ∈ s2.nodes ∧ m.id = m0.id ∧ m.toolsets = m0.toolsets) := by
  have hni : ¬ (tid = INPUT_NODE_ID ∨ tid = OUTPUT_NODE_ID ∨ tid = KNOWLEDGE_NODE_ID) := by
    simpa [reservedIds] using hres
  have hnagent : ¬ (t.type = NodeType.agent) := by
    simp [htool]
  have hclosure : deleteClosure s tid = [tid] := by
    simp [deleteClosure, hfind, hnagent]
  have hnodes : (handleNodeDelete s tid).nodes = s.nodes.filter (fun n => ¬ n.id = tid) := by
    simp [handleNodeDelete, hni, hfind, hclosure, hnagent]
  refine ⟨hnodes, ?_, ?_, ?_⟩
  · simp [handleNodeDelete, hni, hfind, hclosure, hnagent]
  · intro m hm
    rw [hnodes] at hm
    exact (List.mem_filter.mp hm).1
  · intro s2 id2 m hm
    by_cases hr : id2 = INPUT_NODE_ID ∨ id2 = OUTPUT_NODE_ID ∨ id2 = KNOWLEDGE_NODE_ID
    · simp only [handleNodeDelete, if_pos hr] at hm
      exact ⟨m, hm, rfl, rfl⟩
    · simp only [handleNodeDelete, if_neg hr] at hm
      have hm1 := (List.mem_filter.mp hm).1
      rcases hf : s2.nodes.find? (fun n => n.id = id2) with _ | n
      · simp only [hf] at hm1
        exact ⟨m, hm1, rfl, rfl⟩
      · simp only [hf] at hm1
        by_cases hpa : n.parentAgentId.isSome ∧ n.type = NodeType.agent
        · rw [if_pos hpa] at hm1
          rcases List.mem_map.mp hm1 with ⟨m0, hm0, rfl⟩
          refine ⟨m0, hm0, ?_, ?_⟩ <;> by_cases hq : some m0.id = n.parentAgentId <;> simp [hq]
        · rw [if_neg hpa] at hm1
          exact ⟨m, hm1, rfl, rfl⟩

/-- Witness for C10 at a concrete state: deleting the attached tool t1 leaves
exactly the other nodes, drops its connection, and the parent keeps the
appended toolset descriptor. -/
theorem C10_witness :
    c10state.nodes.find? (fun n => n.id = "t1") = some c10tool ∧
    c10tool.type = NodeType.tool ∧
    ¬ "t1" ∈ reservedIds ∧
    (handleNodeDelete c10state "t1").nodes = c10state.nodes.filter (fun n => ¬ n.id = "t1") ∧
    (handleNodeDelete c10state "t1").connections =
      c10state.connections.filter (fun c => ¬ c.sourceId = "t1" ∧ ¬ c.targetId = "t1") :=
  ⟨by decide, by decide, by decide,
   (C10_tool_delete_frame c10state "t1" c10tool (by decide) (by decide) (by decide)).1,
   (C10_tool_delete_frame c10state "t1" c10tool (by decide) (by decide) (by decide)).2.1⟩

/-- Counterexample to C1: in c1state, agent A lists sub-agent S (which lists
S2), and owns tool TA and step STA directly; yet after DeleteNode(A) the
transitive sub-agent S2, the tool TA whose parentAgentId is A, and the step
STA whose parentAgentId is A all remain in the graph, contradicting the
claimed transitive closure over sub-agents and tools/steps of A. -/
theorem C1_counterexample :
    c1A ∈ c1state.nodes ∧ c1A.type = NodeType.agent ∧ ¬ "A" ∈ reservedIds ∧
    c1S.id ∈ c1A.subAgents ∧ c1S2.id ∈ c1S.subAgents ∧
    c1TA ∈ c1state.nodes ∧ c1TA.type = NodeType.tool ∧ c1TA.parentAgentId = some c1A.id ∧
    c1STA ∈ c1state.nodes ∧ c1STA.type = NodeType.step ∧ c1STA.parentAgentId = some c1A.id ∧
    c1TA ∈ (handleNodeDelete c1state "A").nodes ∧
    c1STA ∈ (handleNodeDelete c1state "A").nodes ∧
    c1S2 ∈ (handleNodeDelete c1state "A").nodes := by
  decide

/-- C1 as amended: DeleteNode on any non-reserved agent A removes exactly A,
the sub-agents directly listed in A.subAgents, and the tool nodes whose
parentAgentId is one of those directly listed sub-agents - one level only,
with tool and step nodes whose parentAgentId is A itself and deeper sub-agents
surviving - and removes exactly the connections with a removed endpoint. When
A is top-level the surviving nodes are untouched; when A is itself a sub-agent
the only additional effect is that A is pruned from its parent agent's
subAgents list. -/
theorem C1_amended_delete (s : GraphState) (aId : String) (a : WNode)
    (hfind : s.nodes.find? (fun n => n.id = aId) = some a)
    (hagent : a.type = NodeType.agent)
    (hres : ¬ aId ∈ reservedIds) :
    (∀ i : String, i ∈ deleteClosure s aId ↔
      (i = aId ∨ i ∈ a.subAgents ∨
        ∃ m, m ∈ s.nodes ∧ m.id = i ∧ m.type = NodeType.tool ∧
          ∃ sa ∈ a.subAgents, m.parentAgentId = some sa)) ∧
    (a.parentAgentId = none →
      ∀ m : WNode, m ∈ (handleNodeDelete s aId).nodes ↔
        (m ∈ s.nodes ∧ ¬ m.id ∈ deleteClosure s aId)) ∧
    (∀ pid : String, a.parentAgentId = some pid →
      ∀ m : WNode, m ∈ (handleNodeDelete s aId).nodes ↔
        ∃ m0, m0 ∈ s.nodes ∧ ¬ m0.id ∈ deleteClosure s aId ∧
          m = (if m0.id = pid
               then { m0 with subAgents := m0.subAgents.filter (fun x => ¬ x = aId) }
               else m0)) ∧
    (∀ c : Connection, c ∈ (handleNodeDelete s aId).connections ↔
      (c ∈ s.connections ∧ ¬ c.sourceId ∈ deleteClosure s aId ∧
        ¬ c.targetId ∈ deleteClosure s aId)) := by
  have hni : ¬ (aId = INPUT_NODE_ID ∨ aId = OUTPUT_NODE_ID ∨ aId = KNOWLEDGE_NODE_ID) := by
    simpa [reservedIds] using hres
  have hkeyc : (handleNodeDelete s aId).connections = s.connections.filter (fun c =>
      ¬ c.sourceId ∈ deleteClosure s aId ∧ ¬ c.targetId ∈ deleteClosure s aId) := by
    simp [handleNodeDelete, hni]
  refine ⟨?_, ?_, ?_, ?_⟩
  · intro i
    simp only [deleteClosure, hfind, hagent, if_pos, List.mem_cons, List.mem_flatMap,
      List.mem_map, List.mem_filter]
    constructor
    · rintro (h | ⟨sa, hsa, (h | ⟨m, ⟨hm, hcond⟩, hid⟩)⟩)
      · exact Or.inl h
      · exact Or.inr (Or.inl (h ▸ hsa))
      · simp only [decide_eq_true_eq] at hcond
        exact Or.inr (Or.inr ⟨m, hm, hid, hcond.1, sa, hsa, hcond.2⟩)
    · rintro (h | h | ⟨m, hm, hid, htool, sa, hsa, hpa⟩)
      · exact Or.inl h
      · exact Or.inr ⟨i, h, Or.inl rfl⟩
      · exact Or.inr ⟨sa, hsa, Or.inr ⟨m, ⟨hm, by simp [htool, hpa]⟩, hid⟩⟩
  · intro htop m
    have hkey : (handleNodeDelete s aId).nodes =
        s.nodes.filter (fun n => ¬ n.id ∈ deleteClosure s aId) := by
      simp [handleNodeDelete, hni, hfind, htop]
    simp [hkey, List.mem_filter]
  · intro pid hpid m
    have hid : ∀ m0 : WNode,
        (if m0.id = pid
         then { m0 with subAgents := m0.subAgents.filter (fun x => ¬ x = aId) }
         else m0).id = m0.id := by
      intro m0
      split <;> rfl
    have hkey : (handleNodeDelete s aId).nodes =
        (s.nodes.map (fun m0 : WNode =>
          if m0.id = pid
          then { m0 with subAgents := m0.subAgents.filter (fun x => ¬ x = aId) }
          else m0)).filter (fun n => ¬ n.id ∈ deleteClosure s aId) := by
      simp [handleNodeDelete, hni, hfind, hpid, hagent]
    rw [hkey]
    constructor
    · intro hm
      rcases List.mem_filter.mp hm with ⟨hmem, hdel⟩
      rcases List.mem_map.mp hmem with ⟨m0, hm0, rfl⟩
      have hdel2 := of_decide_eq_true hdel
      rw [hid m0] at hdel2
      exact ⟨m0, hm0, hdel2, rfl⟩
    · rintro ⟨m0, hm0, hdel, rfl⟩
      refine List.mem_filter.mpr ⟨List.mem_map.mpr ⟨m0, hm0, rfl⟩, ?_⟩
      refine decide_eq_true ?_
      rw [hid m0]
      exact hdel
  · intro c
    simp [hkeyc, List.mem_filter]

/-- Witness for C1's amended theorem at the concrete counterexample state:
deleting the top-level agent A (membership of the surviving tool TA), and
deleting the sub-agent S (membership of the pruned parent record of A). -/
theorem C1_amended_witness :
    (c1state.nodes.find? (fun n => n.id = "A") = some c1A) ∧
    c1A.type = NodeType.agent ∧ c1A.parentAgentId = none ∧ ¬ "A" ∈ reservedIds ∧
    (c1TA ∈ (handleNodeDelete c1state "A").nodes ↔
      (c1TA ∈ c1state.nodes ∧ ¬ c1TA.id ∈ deleteClosure c1state "A")) ∧
    (c1state.nodes.find? (fun n => n.id = "S") = some c1S) ∧
    c1S.type = NodeType.agent ∧ c1S.parentAgentId = some "A" ∧ ¬ "S" ∈ reservedIds ∧
    ({ c1A with subAgents := ([] : List String) } ∈ (handleNodeDelete c1state "S").nodes ↔
      ∃ m0, m0 ∈ c1state.nodes ∧ ¬ m0.id ∈ deleteClosure c1state "S" ∧
        { c1A with subAgents := ([] : List String) } =
          (if m0.id = "A"
           then { m0 with subAgents := m0.subAgents.filter (fun x => ¬ x = "S") }
           else m0)) :=
  ⟨by decide, by decide, by decide, by decide,
   (C1_amended_delete c1state "A" c1A (by decide) (by decide) (by decide)).2.1 (by decide) c1TA,
   by decide, by decide, by decide, by decide,
   (C1_amended_delete c1state "S" c1S (by decide) (by decide) (by decide)).2.2.1 "A" (by decide)
     { c1A with subAgents := ([] : List String) }⟩

/-- Counterexample to C3: in c3state both endpoints exist and an identical
(source, target) pair is already present, yet the click-to-connect path
(handleConnectionEnd, one of the two cited Connect implementations) still
appends a second connection, and the added connection carries no
connectionType at all rather than the claimed inferred type. -/
theorem C3_counterexample :
    c3state.nodes.find? (fun n => n.id = INPUT_NODE_ID) = some defaultInputNode ∧
    c3state.nodes.find? (fun n => n.id = "a1") = some c3agent ∧
    c3state.connections = [⟨"c0", INPUT_NODE_ID, "a1", some ConnType.flow⟩] ∧
    (handleConnectionEnd c3state (some INPUT_NODE_ID) "a1" "c1").connections =
      [⟨"c0", INPUT_NODE_ID, "a1", some ConnType.flow⟩,
       ⟨"c1", INPUT_NODE_ID, "a1", none⟩] := by
  decide

/-- C3 as amended: the drag-release path handleConnectionDrop behaves exactly
as claimed — self-connections and duplicate (source, target) pairs add
nothing, and otherwise exactly one connection is appended whose type is tool
iff the source is a tool and the target an agent, else flow — while the
click path handleConnectionEnd only rejects self-connections and appends a
connection with no connectionType and no duplicate check. -/
theorem C3_amended_connect (s : GraphState) (src tgt cid : String) (sn tn : WNode)
    (hs : s.nodes.find? (fun n => n.id = src) = some sn)
    (ht : s.nodes.find? (fun n => n.id = tgt) = some tn) :
    (src = tgt → handleConnectionDrop s src tgt cid = s) ∧
    ((∃ c ∈ s.connections, c.sourceId = src ∧ c.targetId = tgt) →
      handleConnectionDrop s src tgt cid = s) ∧
    (¬ src = tgt →
      (∀ c ∈ s.connections, ¬ (c.sourceId = src ∧ c.targetId = tgt)) →
      handleConnectionDrop s src tgt cid =
        { s with connections := s.connections ++
            [⟨cid, src, tgt,
              some (if sn.type = NodeType.tool ∧ tn.type = NodeType.agent
                    then ConnType.tool else ConnType.flow)⟩] }) ∧
    (∀ (f nid ncid : String),
      (handleConnectionEnd s (some f) nid ncid).connections =
        if f = nid then s.connections
        else s.connections ++ [⟨ncid, f, nid, none⟩]) := by
  refine ⟨?_, ?_, ?_, ?_⟩
  · intro h
    simp [handleConnectionDrop, h]
  · rintro ⟨c, hc, h1, h2⟩
    by_cases hst : src = tgt
    · simp [handleConnectionDrop, hst]
    · have hany : s.connections.any (fun c => c.sourceId = src ∧ c.targetId = tgt) = true :=
        List.any_eq_true.mpr ⟨c, hc, by simp [h1, h2]⟩
      simp only [handleConnectionDrop]
      rw [if_pos hst]
      simp only [hs, ht]
      rw [hany]
      simp
  · intro hst hno
    have hany : s.connections.any (fun c => c.sourceId = src ∧ c.targetId = tgt) = false := by
      simp only [List.any_eq_false]
      intro c hc
      simpa using hno c hc
    simp only [handleConnectionDrop]
    rw [if_pos hst]
    simp only [hs, ht]
    rw [hany]
    simp
  · intro f nid ncid
    by_cases h : f = nid <;> simp [handleConnectionEnd, h]

/-- Witness for C3's amended theorem: connecting a1 back to the input (no
duplicate present) appends exactly one flow-typed connection. -/
theorem C3_amended_witness :
    ¬ "a1" = INPUT_NODE_ID ∧
    (∀ c ∈ c3state.connections, ¬ (c.sourceId = "a1" ∧ c.targetId = INPUT_NODE_ID)) ∧
    handleConnectionDrop c3state "a1" INPUT_NODE_ID "c2" =
      { c3state with connections := c3state.connections ++
          [⟨"c2", "a1", INPUT_NODE_ID, some ConnType.flow⟩] } := by
  refine ⟨by decide, by decide, ?_⟩
  exact ((C3_amended_connect c3state "a1" INPUT_NODE_ID "c2" c3agent defaultInputNode
    (by decide) (by decide)).2.2.1 (by decide) (by decide)).trans (by decide)

/-- C4: dropping an agent onto a hovered connection leaves the connection set
unchanged when the hovered connection is tool-typed, and when it is flow-typed
replaces it by the two flow connections previous-source to the new agent and
the new agent to previous-target. -/
theorem C4_split_flow_edge (conns : List Connection) (hid naid id1 id2 : String)
    (c : Connection)
    (hfind : conns.find? (fun x => x.id = hid) = some c) :
    (c.connectionType = some ConnType.tool →
      splitConnectionOnDrop conns hid naid id1 id2 = conns) ∧
    (c.connectionType = some ConnType.flow →
      splitConnectionOnDrop conns hid naid id1 id2 =
        conns.filter (fun x => ¬ x.id = hid) ++
          [⟨id1, c.sourceId, naid, some ConnType.flow⟩,
           ⟨id2, naid, c.targetId, some ConnType.flow⟩]) := by
  constructor <;> intro h <;> simp [splitConnectionOnDrop, hfind, h]

/-- Witness for C4 on a concrete connection list: the flow edge f1 is split,
the tool edge t1 drop is a no-op. -/
theorem C4_witness :
    c4conns.find? (fun x => x.id = "f1") = some ⟨"f1", "a", "b", some ConnType.flow⟩ ∧
    splitConnectionOnDrop c4conns "f1" "N" "n1" "n2" =
      c4conns.filter (fun x => ¬ x.id = "f1") ++
        [⟨"n1", "a", "N", some ConnType.flow⟩, ⟨"n2", "N", "b", some ConnType.flow⟩] ∧
    splitConnectionOnDrop c4conns "t1" "N" "n1" "n2" = c4conns := by
  refine ⟨by decide, ?_, ?_⟩
  · exact ((C4_split_flow_edge c4conns "f1" "N" "n1" "n2" ⟨"f1", "a", "b", some ConnType.flow⟩
      (by decide)).2 (by decide)).trans (by decide)
  · exact (C4_split_flow_edge c4conns "t1" "N" "n1" "n2" ⟨"t1", "x", "y", some ConnType.tool⟩
      (by decide)).1 (by decide)

/-- C5: for an agent template dropped on the plain canvas whose configuration
fetch fails, exactly one node is committed — the agent shell, of type agent,
with empty toolsets, carrying the requested id — and the connection collection
is unchanged. -/
theorem C5_fetch_failure_commits_shell (getFns : String → List String) (s : GraphState)
    (itemName itemIcon : String) (itemMcp : Option MCPConfig) (pos : Pos)
    (newId nodeIdBase connIdBase splitId1 splitId2 : String) :
    (dropAgentTemplate getFns s itemName itemIcon itemMcp pos newId nodeIdBase connIdBase
        splitId1 splitId2 FetchResult.failure none).nodes =
      s.nodes ++ [mkDroppedAgentShell itemName itemIcon itemMcp pos newId] ∧
    (dropAgentTemplate getFns s itemName itemIcon itemMcp pos newId nodeIdBase connIdBase
        splitId1 splitId2 FetchResult.failure none).connections = s.connections ∧
    (mkDroppedAgentShell itemName itemIcon itemMcp pos newId).type = NodeType.agent ∧
    (mkDroppedAgentShell itemName itemIcon itemMcp pos newId).toolsets = [] ∧
    (mkDroppedAgentShell itemName itemIcon itemMcp pos newId).id = newId :=
  ⟨rfl, rfl, rfl, rfl, rfl⟩

/-- Counterexample to C8: on parent A, after inserting tool t1, then sub-agent
S, then tool t2, the second tool t2 and the sub-agent S occupy the identical
position (290, 570) — the tool group is not shifted below the sub-agent rows
and the two sibling groups do overlap. -/
theorem C8_counterexample :
    ((c8s3.nodes.find? (fun n => n.id = "t2")).map
        (fun n => (n.type, n.parentAgentId, n.position)) =
      some (NodeType.tool, some "A", ⟨290, 570⟩)) ∧
    ((c8s3.nodes.find? (fun n => n.id = "S")).map
        (fun n => (n.type, n.parentAgentId, n.position)) =
      some (NodeType.agent, some "A", ⟨290, 570⟩)) ∧
    ((c8s3.nodes.find? (fun n => n.id = "A")).map (fun n => n.subAgents) = some ["S"]) := by
  decide

/-- C8 as amended: a newly attached tool is placed from a fixed start offset
180 with grid index the current getAgentTools count (tool-typed connections
into the parent, which includes sub-agents), recomputed at insertion time;
it is the sub-agent branch whose start offset shifts below the current tool
rows (180 plus ceil(tools/2) rows of 140). -/
theorem C8_amended_layout (getFns : String → List String) (s : GraphState)
    (agentId itemName itemIcon : String) (itemMcp : Option MCPConfig)
    (newId connId nb cb : String) (fetch : FetchResult) (a : WNode)
    (hfind : s.nodes.find? (fun n => n.id = agentId) = some a) :
    ((handleToolDropOnAgent getFns s agentId NodeType.tool itemName itemIcon itemMcp
        newId connId nb cb fetch).nodes.getLast?).map WNode.position =
      some ⟨a.position.x + Int.ofNat ((getAgentTools s agentId).length % 2) * 250 - 110,
            a.position.y + 180 + Int.ofNat ((getAgentTools s agentId).length / 2) * 140⟩ ∧
    (¬ newId = agentId →
      ((handleToolDropOnAgent getFns s agentId NodeType.agent "New Agent" itemIcon itemMcp
          newId connId nb cb fetch).nodes.getLast?).map WNode.position =
        some ⟨a.position.x + Int.ofNat
                ((s.nodes.filter (fun n =>
                  n.type = NodeType.agent ∧ n.parentAgentId = some agentId)).length % 2) * 250 - 110,
              a.position.y +
                (180 + Int.ofNat (((getAgentTools s agentId).length + 1) / 2) * 140) +
                Int.ofNat
                  ((s.nodes.filter (fun n =>
                    n.type = NodeType.agent ∧ n.parentAgentId = some agentId)).length / 2) * 140⟩) := by
  constructor
  · simp [handleToolDropOnAgent, hfind, List.getLast?_concat]
  · intro hne
    simp [handleToolDropOnAgent, hfind, hne, List.map_append, List.getLast?_concat]

/-- Witness for C8's amended theorem: the first tool dropped on the bare agent
A lands at (290, 430) = (400 - 110, 250 + 180). -/
theorem C8_amended_witness :
    c8s0.nodes.find? (fun n => n.id = "A") = some c8agentA ∧
    ((handleToolDropOnAgent noFns c8s0 "A" NodeType.tool "Alpha" "Wrench" none
        "t1" "c1" "xb1" "yb1" FetchResult.failure).nodes.getLast?).map WNode.position =
      some ⟨290, 430⟩ := by
  refine ⟨by decide, ?_⟩
  exact ((C8_amended_layout noFns c8s0 "A" "Alpha" "Wrench" none "t1" "c1" "xb1" "yb1"
    FetchResult.failure c8agentA (by decide)).1).trans (by decide)

/-- C7: importing any document lacking the top-level agents mapping reports the
invalid-document error and leaves nodes and connections exactly unchanged. -/
theorem C7_missing_agents_unchanged (s : GraphState) (doc : ImportDoc)
    (h : doc.agents = none) :
    handleImportAgent s doc = (s, ImportResult.invalidYaml) := by
  simp [handleImportAgent, h]

/-- Witness for C7 on a concrete agent-less document and the initial state. -/
theorem C7_witness :
    c7doc.agents = none ∧
    handleImportAgent initialState c7doc = (initialState, ImportResult.invalidYaml) :=
  ⟨rfl, C7_missing_agents_unchanged initialState c7doc rfl⟩

/-- Counterexample to C9: exporting a graph with four nodes (one agent) yields
a document with no agents mapping, so re-importing it is rejected with the
invalid-document error and reproduces nothing — the re-imported graph still
has three nodes and zero agents, not an isomorphic copy. -/
theorem C9_counterexample :
    (exportWorkflow c2state).agents = none ∧
    (exportWorkflow c2state).nodes = some c2state.nodes ∧
    handleImportAgent initialState (exportWorkflow c2state) =
      (initialState, ImportResult.invalidYaml) ∧
    c2state.nodes.length = 4 ∧
    initialState.nodes.length = 3 ∧
    c2state.nodes.countP (fun n => n.type = NodeType.agent) = 1 ∧
    initialState.nodes.countP (fun n => n.type = NodeType.agent) = 0 := by
  decide

/-- C9 as amended: re-importing the exported nodes/connections/version
document always fails with the invalid-document error and leaves the target
graph unchanged, for every exported state and every target state — the export
format is not re-importable, so no round-trip reproduction occurs. -/
theorem C9_amended_roundtrip (s target : GraphState) :
    handleImportAgent target (exportWorkflow s) = (target, ImportResult.invalidYaml) := rfl

end Narwhal
